import Mathlib

/-! lddbus: a shallow embedding of `trunk/lddbus/lddbus.c`

The LDD virtual bus: the matcher `ldd_match`, the hotplug / uevent callbacks,
`register_ldd_device`, `show_version` and `register_ldd_driver`.

Memory regions holding C strings are lists of bytes (`List Nat`); a `char *`
that may be `NULL` is an `Option` of such a region.  The file is compiled
either for kernels older than 2.6.28 or for later ones; the preprocessor test
`LINUX_VERSION_CODE < KERNEL_VERSION(2, 6, 28)` becomes a run-time test on a
parameter `LINUX_VERSION_CODE`.
-/

namespace Lddbus

/-! ## C strings and the kernel string library -/

/-- Bytes of an ASCII literal (without the terminating NUL). -/
def ascii (s : String) : List Nat := s.toList.map Char.toNat

/-- The C string stored at the start of a region: the bytes before the first NUL. -/
def cstr : List Nat → List Nat
  | [] => []
  | c :: cs => if c = 0 then [] else c :: cstr cs

/-- Kernel `strlen`: the number of bytes before the first NUL. -/
def strlen : List Nat → Nat
  | [] => 0
  | c :: cs => if c = 0 then 0 else strlen cs + 1

/-- Kernel `strncmp` (lib/string.c): compare at most `count` bytes, stopping
after a NUL common to both strings.  A read past the end of a region yields
NUL. -/
def strncmp : List Nat → List Nat → Nat → Int
  | _, _, 0 => 0
  | cs, ct, count + 1 =>
    let c1 := cs.headD 0
    let c2 := ct.headD 0
    if c1 ≠ c2 then (if c1 < c2 then -1 else 1)
    else if c1 = 0 then 0
    else strncmp cs.tail ct.tail count

/-- Store `data` at the start of the region `buf`. -/
def store (buf data : List Nat) : List Nat := data ++ buf.drop data.length

/-- Expansion of a format with one `%s` conversion: the text before it, the
string argument, the text after it.  As in the kernel, a `NULL` argument
prints as `(null)`. -/
def format_s (before : List Nat) (arg : Option (List Nat)) (after : List Nat) :
    List Nat :=
  before ++ (match arg with
    | some s => cstr s
    | none => ascii "(null)") ++ after

/-- Kernel `snprintf`, given the expanded output `out`: a negative size is
rejected (nothing written, result 0); size 0 writes nothing; otherwise the
first `size - 1` bytes of the output and a NUL are written.  The result is the
length of the whole output. -/
def snprintf (buf : List Nat) (size : Int) (out : List Nat) : Int × List Nat :=
  if size < 0 then (0, buf)
  else if size = 0 then (out.length, buf)
  else (out.length, store buf (out.take (size.toNat - 1) ++ [0]))

/-- Kernel `sprintf`: the whole output and a NUL are written. -/
def sprintf (buf : List Nat) (out : List Nat) : Int × List Nat :=
  (out.length, store buf (out ++ [0]))

/-- Kernel `strncpy` (lib/string.c): exactly `count` bytes of `dest` are
written, the string `src` first and NUL bytes after its end. -/
def strncpy (dest src : List Nat) (count : Nat) : List Nat :=
  store dest ((cstr src).take count ++ List.replicate (count - (cstr src).length) 0)

/-! ## Constants of the kernel headers -/

def ENOMEM : Int := 12
/-- The macro `KERNEL_VERSION(a, b, c)`. -/
def KERNEL_VERSION (a b c : Nat) : Nat := a * 65536 + b * 256 + c

/-- Size of `struct device.bus_id` in kernels before 2.6.28 -/
def BUS_ID_SIZE : Nat := 20

/-- Mode `S_IRUGO`, octal 0444: readable by user, group and others, writable
by nobody. -/
def S_IRUGO : Nat := 0o444

/-! ## Data model -/

/-- Addresses of `struct bus_type` objects. -/
inductive bus_type_ptr where
  | ldd_bus_type
  | other (addr : Nat)
  deriving DecidableEq, Repr

/-- Addresses of `struct device` objects. -/
inductive device_ptr where
  | ldd_bus
  | other (addr : Nat)
  deriving DecidableEq, Repr

/-- Device release callbacks. -/
inductive release_fn where
  | ldd_bus_release
  | ldd_dev_release
  | other (addr : Nat)
  deriving DecidableEq, Repr

/-- The fields of the kernel's `struct device` that lddbus.c touches.
`bus_id` is the name array of kernels before 2.6.28; `kobj_name` is the name
that `dev_name` returns in later kernels (`NULL` while the device has none). -/
structure device where
  bus : Option bus_type_ptr
  parent : Option device_ptr
  release : Option release_fn
  bus_id : List Nat
  kobj_name : Option (List Nat)
  deriving DecidableEq, Repr

/-- Kernel `dev_name`. -/
def dev_name (dev : device) : Option (List Nat) := dev.kobj_name

/-- The fields of the kernel's `struct device_driver` that lddbus.c touches. -/
structure device_driver where
  name : List Nat
  bus : Option bus_type_ptr
  deriving DecidableEq, Repr

/-- Modelled from the spec: `struct ldd_device` is declared in lddbus.h, which
is not among the sources; the fields are the ones lddbus.c uses.  A
`struct device *` of this bus is represented by the `ldd_device` that embeds
it, so `&ldddev->dev` and `container_of` are field access. -/
structure ldd_device where
  name : Option (List Nat)
  dev : device
  deriving DecidableEq, Repr

/-- Modelled from the spec: the macro `to_ldd_device` of lddbus.h, a
`container_of`; it never yields `NULL` for a device embedded in an
`ldd_device`. -/
def to_ldd_device (dev : ldd_device) : Option ldd_device := some dev

/-- Show callbacks of driver attributes. -/
inductive show_fn where
  | show_version
  | other (addr : Nat)
  deriving DecidableEq, Repr

/-- Kernel `struct driver_attribute` with its embedded `struct attribute`
(`attr.name`, `attr.owner`, `attr.mode`).  `owner` is the address of a
`struct module`, `store` the address of a store callback; `show_` is the
field `show`. -/
structure driver_attribute where
  attr_name : Option (List Nat)
  attr_owner : Option Nat
  attr_mode : Nat
  show_ : Option show_fn
  store : Option Nat
  deriving DecidableEq, Repr

/-- Modelled from the spec: `struct ldd_driver` is declared in lddbus.h, which
is not among the sources; the fields are the ones lddbus.c uses. -/
structure ldd_driver where
  version : Option (List Nat)
  module : Option Nat
  driver : device_driver
  version_attr : driver_attribute
  deriving DecidableEq, Repr

/-- Calls into the driver core, in the order made. -/
inductive kcall where
  | device_register (dev : device)
  | driver_register (drv : device_driver)
  | driver_create_file (drv : device_driver) (attr : driver_attribute)
  deriving DecidableEq, Repr

/-- The driver core and allocator as seen from lddbus.c: the result codes of
`device_register`, `driver_register` and `driver_create_file` on their
arguments, and whether the allocation made by `kasprintf` succeeds. -/
structure kernel where
  device_register : device → Int
  driver_register : device_driver → Int
  driver_create_file : device_driver → driver_attribute → Int
  kasprintf_ok : Bool

/-- Kernel `kasprintf`, given the expanded output: a fresh NUL-terminated
copy, or `NULL` when the allocation fails. -/
def kasprintf (k : kernel) (out : List Nat) : Option (List Nat) :=
  if k.kasprintf_ok then some (out ++ [0]) else none

/-! ## Notification callbacks -/

/-- Source line 29: `static char *Version = "$Revision: 1.9 $";` -/
def Version : List Nat := ascii "$Revision: 1.9 $" ++ [0]

/-- Outcome of `ldd_hotplug`: the result code, the environment vector and the
contents of the buffer after the call. -/
structure hotplug_result where
  ret : Int
  envp : List (Option Nat)
  mem : List Nat
  deriving DecidableEq, Repr

/-- Source `ldd_hotplug` (lines 35-44).  `buffer` is the address held by the
pointer, `mem` the bytes stored there, `envp` the vector of `char *`. -/
def ldd_hotplug (_dev : ldd_device) (envp : List (Option Nat)) (_num_envp : Int)
    (buffer : Nat) (mem : List Nat) (buffer_size : Int) : hotplug_result :=
  let envp := envp.set 0 (some buffer)
  let r := snprintf mem buffer_size
    (format_s (ascii "LDDBUS_VERSION=") (some Version) [])
  if r.1 ≥ buffer_size then
    { ret := -ENOMEM, envp := envp, mem := r.2 }
  else
    let envp := envp.set 1 none
    { ret := 0, envp := envp, mem := r.2 }

/-- Source `ldd_match` (lines 70-78).  The result is `none` when
`dev_name` is `NULL`, where `strncmp` dereferences a null pointer. -/
def ldd_match (LINUX_VERSION_CODE : Nat) (dev : ldd_device)
    (driver : device_driver) : Option Bool :=
  if LINUX_VERSION_CODE < KERNEL_VERSION 2 6 28 then
    some (strncmp dev.dev.bus_id driver.name (strlen driver.name) == 0)
  else
    match to_ldd_device dev with
    | none => none
    | some ldddev =>
      match dev_name ldddev.dev with
      | none => none
      | some nm => some (strncmp nm driver.name (strlen driver.name) == 0)

/-- The name `ldd_match` reads for a device: `dev->bus_id` before 2.6.28,
`dev_name` afterwards. -/
def match_name (LINUX_VERSION_CODE : Nat) (dev : ldd_device) : Option (List Nat) :=
  if LINUX_VERSION_CODE < KERNEL_VERSION 2 6 28 then some dev.dev.bus_id
  else dev_name dev.dev

/-- Source `register_ldd_device` (lines 136-147).  The result is `none` when
`strncpy` reads through a null `ldddev->name`. -/
def register_ldd_device (k : kernel) (LINUX_VERSION_CODE : Nat)
    (ldddev : ldd_device) : Option (Int × ldd_device) :=
  let ldddev := { ldddev with dev := { ldddev.dev with bus := some bus_type_ptr.ldd_bus_type } }
  let ldddev := { ldddev with dev := { ldddev.dev with parent := some device_ptr.ldd_bus } }
  let ldddev := { ldddev with dev := { ldddev.dev with release := some release_fn.ldd_dev_release } }
  if LINUX_VERSION_CODE < KERNEL_VERSION 2 6 28 then
    match ldddev.name with
    | none => none
    | some nm =>
      let ldddev := { ldddev with
        dev := { ldddev.dev with bus_id := strncpy ldddev.dev.bus_id nm BUS_ID_SIZE } }
      some (k.device_register ldddev.dev, ldddev)
  else
    let ldddev := { ldddev with
      name := kasprintf k (format_s [] (dev_name ldddev.dev) []) }
    some (k.device_register ldddev.dev, ldddev)

/-! ## Drivers -/

/-- Modelled from the spec: the macro `to_ldd_driver` of lddbus.h, a
`container_of`; a `struct device_driver *` of this bus is represented by the
`ldd_driver` that embeds it. -/
def to_ldd_driver (driver : ldd_driver) : ldd_driver := driver

/-- Source `show_version` (lines 163-169): the result and the buffer after
the call. -/
def show_version (driver : ldd_driver) (buf : List Nat) : Int × List Nat :=
  let ldriver := to_ldd_driver driver
  let r := sprintf buf (format_s [] ldriver.version (ascii "\n"))
  (strlen r.2, r.2)

/-- Outcome of `register_ldd_driver`: the result code, the driver structure
and the calls made into the driver core. -/
structure register_driver_result where
  ret : Int
  driver : ldd_driver
  calls : List kcall
  deriving DecidableEq, Repr

/-- Source `register_ldd_driver` (lines 172-186). -/
def register_ldd_driver (k : kernel) (driver : ldd_driver) : register_driver_result :=
  let driver := { driver with driver := { driver.driver with bus := some bus_type_ptr.ldd_bus_type } }
  let ret := k.driver_register driver.driver
  let calls := [kcall.driver_register driver.driver]
  if ret ≠ 0 then
    { ret := ret, driver := driver, calls := calls }
  else
    let driver := { driver with version_attr := { driver.version_attr with attr_name := some (ascii "version" ++ [0]) } }
    let driver := { driver with version_attr := { driver.version_attr with attr_owner := driver.module } }
    let driver := { driver with version_attr := { driver.version_attr with attr_mode := S_IRUGO } }
    let driver := { driver with version_attr := { driver.version_attr with show_ := some show_fn.show_version } }
    let driver := { driver with version_attr := { driver.version_attr with store := none } }
    { ret := k.driver_create_file driver.driver driver.version_attr,
      driver := driver,
      calls := calls ++ [kcall.driver_create_file driver.driver driver.version_attr] }

/-! ## Sample objects -/

/-- A device as its creator leaves it before registration: `name` set, the
embedded `struct device` zeroed. -/
def fresh_device (name : String) : ldd_device :=
  { name := some (ascii name ++ [0]),
    dev := { bus := none, parent := none, release := none,
             bus_id := List.replicate BUS_ID_SIZE 0, kobj_name := none } }

/-- A device driver of the given name. -/
def driver_named (name : String) : device_driver :=
  { name := ascii name ++ [0], bus := some bus_type_ptr.ldd_bus_type }

/-- A driver core on which every call succeeds. -/
def kernel_ok : kernel :=
  { device_register := fun _ => 0, driver_register := fun _ => 0,
    driver_create_file := fun _ _ => 0, kasprintf_ok := true }

/-- A device of the given name as the driver core hands it to the matcher:
the name is in `bus_id` (before 2.6.28) and is what `dev_name` returns. -/
def device_named (name : String) : ldd_device :=
  { name := some (ascii name ++ [0]),
    dev := { bus := some bus_type_ptr.ldd_bus_type, parent := some device_ptr.ldd_bus,
             release := some release_fn.ldd_dev_release,
             bus_id := strncpy (List.replicate BUS_ID_SIZE 0) (ascii name ++ [0]) BUS_ID_SIZE,
             kobj_name := some (ascii name ++ [0]) } }

/-- The text that `ldd_hotplug` formats: the key, `=`, and `Version`. -/
def hotplug_payload : List Nat := ascii "LDDBUS_VERSION=$Revision: 1.9 $"

/-- The driver "sculld" with version "1.0", before registration. -/
def sculld_driver : ldd_driver :=
  { version := some (ascii "1.0" ++ [0]), module := some 7,
    driver := { name := ascii "sculld" ++ [0], bus := none },
    version_attr := { attr_name := none, attr_owner := none, attr_mode := 0,
                      show_ := none, store := none } }

/-- The driver structure as `register_ldd_driver` hands it to the driver core:
the bus set to `ldd_bus_type`. -/
def on_ldd_bus (driver : ldd_driver) : device_driver :=
  { driver.driver with bus := some bus_type_ptr.ldd_bus_type }

/-- The attribute the claim describes: named "version", owned by the driver's
module, mode S_IRUGO, shown by show_version, without a store callback. -/
def version_attribute (driver : ldd_driver) : driver_attribute :=
  { attr_name := some (ascii "version" ++ [0]), attr_owner := driver.module,
    attr_mode := S_IRUGO, show_ := some show_fn.show_version, store := none }

/-- A device whose creator supplied its own release callback. -/
def device_with_release : ldd_device :=
  { name := some (ascii "sculld0" ++ [0]),
    dev := { bus := none, parent := none, release := some (release_fn.other 42),
             bus_id := List.replicate BUS_ID_SIZE 0,
             kobj_name := some (ascii "sculld0" ++ [0]) } }

/-- A device named "sculld0" by its component in `ldddev->name`, whose
embedded `struct device` carries the name "other0". -/
def sculld0_over_other0 : ldd_device :=
  { name := some (ascii "sculld0" ++ [0]),
    dev := { bus := none, parent := none, release := none,
             bus_id := List.replicate BUS_ID_SIZE 0,
             kobj_name := some (ascii "other0" ++ [0]) } }

/-! ## Lemmas on the string library -/

theorem strlen_terminated (P r : List Nat) (hP : 0 ∉ P) :
    strlen (P ++ 0 :: r) = P.length := by
  induction P with
  | nil => simp [strlen]
  | cons p P ih =>
    have hp : p ≠ 0 := fun h => hP (by simp [h])
    have hP2 : 0 ∉ P := fun h => hP (by simp [h])
    simp [strlen, hp, ih hP2]

theorem cstr_terminated (P r : List Nat) (hP : 0 ∉ P) :
    cstr (P ++ 0 :: r) = P := by
  induction P with
  | nil => simp [cstr]
  | cons p P ih =>
    have hp : p ≠ 0 := fun h => hP (by simp [h])
    have hP2 : 0 ∉ P := fun h => hP (by simp [h])
    simp [cstr, hp, ih hP2]

/-- Comparing a region with a string `P` over the length of `P` gives 0
exactly when the region starts with `P`. -/
theorem strncmp_eq_zero_iff (P : List Nat) (hP : 0 ∉ P) :
    ∀ (R r : List Nat), strncmp R (P ++ r) P.length = 0 ↔ P <+: R := by
  induction P with
  | nil => intro R r; simp [strncmp]
  | cons p P ih =>
    intro R r
    have hp : p ≠ 0 := fun h => hP (by simp [h])
    have hP2 : 0 ∉ P := fun h => hP (by simp [h])
    cases R with
    | nil =>
      have hp2 : ¬ (0 = p) := fun h => hp h.symm
      have hpos : 0 < p := Nat.pos_of_ne_zero hp
      simp [strncmp, hp2, hpos]
    | cons c R =>
      by_cases hc : c = p
      · subst hc
        simp [strncmp, hp, ih hP2 R r, List.cons_prefix_cons]
      · have hc2 : ¬ (p = c) := fun h => hc h.symm
        have hne : ¬ (p :: P <+: c :: R) := by
          simp [List.cons_prefix_cons, hc2]
        have hcmp : strncmp (c :: R) (p :: P ++ r) (p :: P).length ≠ 0 := by
          simp only [strncmp, List.length_cons, List.headD_cons, List.cons_append, ne_eq, hc,
            not_false_eq_true, if_true]
          split <;> simp
        exact ⟨fun h => absurd h hcmp, fun h => absurd h hne⟩

/-- A string without NUL starts a NUL-terminated region exactly when it
starts the string stored there. -/
theorem prefix_terminated_iff (P D r : List Nat) (hP : 0 ∉ P) :
    P <+: D ++ 0 :: r ↔ P <+: D := by
  constructor
  · intro h
    by_cases hlen : P.length ≤ D.length
    · exact List.prefix_of_prefix_length_le h (List.prefix_append D (0 :: r)) hlen
    · exfalso
      have hlt : D.length < P.length := Nat.lt_of_not_le hlen
      have h2 : D ++ [0] <+: P := by
        have h3 : D ++ [0] <+: D ++ 0 :: r := by
          simp
        exact List.prefix_of_prefix_length_le h3 h (by simpa using hlt)
      obtain ⟨t, ht⟩ := h2
      exact hP (by rw [← ht]; simp)
  · intro h
    exact h.trans (List.prefix_append D (0 :: r))

/-- The matcher on a named device and a named driver: the result is the
byte-wise test that the driver name starts the device name. -/
theorem ldd_match_eq (v : Nat) (dev : ldd_device) (driver : device_driver)
    (D P r t : List Nat) (hP : 0 ∉ P)
    (hdev : match_name v dev = some (D ++ 0 :: r))
    (hdrv : driver.name = P ++ 0 :: t) :
    ldd_match v dev driver = some (decide (P <+: D)) := by
  have hlen : strlen driver.name = P.length := by
    rw [hdrv]; exact strlen_terminated P t hP
  have key : ∀ R : List Nat, R = D ++ 0 :: r →
      (strncmp R driver.name (strlen driver.name) == 0) = decide (P <+: D) := by
    intro R hR
    rw [hlen, hdrv, hR]
    have h1 := strncmp_eq_zero_iff P hP (D ++ 0 :: r) (0 :: t)
    have h2 := prefix_terminated_iff P D r hP
    by_cases hpre : P <+: D
    · have h0 : strncmp (D ++ 0 :: r) (P ++ 0 :: t) P.length = 0 := h1.mpr (h2.mpr hpre)
      simp [h0, hpre]
    · have h0 : strncmp (D ++ 0 :: r) (P ++ 0 :: t) P.length ≠ 0 :=
        fun h => hpre (h2.mp (h1.mp h))
      simp [h0, hpre]
  unfold match_name at hdev
  unfold ldd_match
  by_cases hv : v < KERNEL_VERSION 2 6 28
  · simp only [hv, if_true, Option.some.injEq] at hdev ⊢
    exact key _ hdev
  · simp only [hv, if_false] at hdev ⊢
    simp only [to_ldd_device, hdev, Option.some.injEq]
    exact key _ rfl

/-- The code for kernels before 2.6.28 copies the supplied name into
`bus_id`: for a name shorter than `BUS_ID_SIZE`, registration keeps
`ldddev->name` and the matcher afterwards tests the driver name against the
supplied name. -/
theorem register_ldd_device_legacy_name (k : kernel) (v : Nat) (ldddev : ldd_device)
    (driver : device_driver) (D P r t : List Nat) (hD : 0 ∉ D) (hP : 0 ∉ P)
    (hv : v < KERNEL_VERSION 2 6 28) (hshort : D.length < BUS_ID_SIZE)
    (hname : ldddev.name = some (D ++ 0 :: r)) (hdrv : driver.name = P ++ 0 :: t) :
    ∃ res, register_ldd_device k v ldddev = some res ∧
      res.2.name = some (D ++ 0 :: r) ∧
      ldd_match v res.2 driver = some (decide (P <+: D)) := by
  have hcopy : strncpy ldddev.dev.bus_id (D ++ 0 :: r) BUS_ID_SIZE =
      D ++ 0 :: (List.replicate (BUS_ID_SIZE - D.length - 1) 0 ++
        ldddev.dev.bus_id.drop
          (D ++ List.replicate (BUS_ID_SIZE - D.length) 0).length) := by
    unfold strncpy store
    rw [cstr_terminated D r hD, List.take_of_length_le (Nat.le_of_lt hshort)]
    have hrep : List.replicate (BUS_ID_SIZE - D.length) 0 =
        (0 : Nat) :: List.replicate (BUS_ID_SIZE - D.length - 1) 0 := by
      have : BUS_ID_SIZE - D.length = (BUS_ID_SIZE - D.length - 1) + 1 := by omega
      rw [this, List.replicate_succ]
      simp
    rw [List.append_assoc]
    nth_rewrite 1 [hrep]
    simp
  have hsome : ∃ res, register_ldd_device k v ldddev = some res ∧
      res.2.name = ldddev.name ∧
      res.2.dev.bus_id = strncpy ldddev.dev.bus_id (D ++ 0 :: r) BUS_ID_SIZE := by
    unfold register_ldd_device
    simp [hv, hname]
  obtain ⟨res, h1, h2, h3⟩ := hsome
  refine ⟨res, h1, by rw [h2, hname], ?_⟩
  have hm : match_name v res.2 = some (D ++ 0 ::
      (List.replicate (BUS_ID_SIZE - D.length - 1) 0 ++
        ldddev.dev.bus_id.drop
          (D ++ List.replicate (BUS_ID_SIZE - D.length) 0).length)) := by
    unfold match_name
    rw [if_pos hv, h3, hcopy]
  exact ldd_match_eq v res.2 driver D P _ t hP hm hdrv

/-! ## Notification: lemmas -/

theorem hotplug_format :
    format_s (ascii "LDDBUS_VERSION=") (some Version) [] = hotplug_payload := by
  decide

theorem hotplug_payload_length : hotplug_payload.length = 31 := by decide

theorem ldd_hotplug_ret (dev : ldd_device) (envp : List (Option Nat)) (n : Int)
    (buffer : Nat) (mem : List Nat) (buffer_size : Int) :
    (ldd_hotplug dev envp n buffer mem buffer_size).ret =
      if 32 ≤ buffer_size then 0 else -ENOMEM := by
  unfold ldd_hotplug
  rw [hotplug_format]
  unfold snprintf
  by_cases h1 : buffer_size < 0
  · have h2 : ¬ (32 ≤ buffer_size) := by omega
    have h3 : (0 : Int) ≥ buffer_size := by omega
    simp [h1, h2, h3]
  · by_cases h0 : buffer_size = 0
    · subst h0
      simp [hotplug_payload_length]
    · by_cases h32 : 32 ≤ buffer_size
      · have h3 : ¬ ((31 : Int) ≥ buffer_size) := by omega
        simp [h1, h0, h32, h3, hotplug_payload_length]
      · have h3 : (31 : Int) ≥ buffer_size := by omega
        simp [h1, h0, h32, h3, hotplug_payload_length]

theorem ldd_hotplug_envp_mem (dev : ldd_device) (envp : List (Option Nat)) (n : Int)
    (buffer : Nat) (mem : List Nat) (buffer_size : Int) :
    (ldd_hotplug dev envp n buffer mem buffer_size).envp =
      (if 32 ≤ buffer_size then (envp.set 0 (some buffer)).set 1 none
        else envp.set 0 (some buffer)) ∧
    (ldd_hotplug dev envp n buffer mem buffer_size).mem =
      (if buffer_size ≤ 0 then mem
        else store mem (hotplug_payload.take (buffer_size.toNat - 1) ++ [0])) := by
  unfold ldd_hotplug
  rw [hotplug_format]
  unfold snprintf
  by_cases h1 : buffer_size < 0
  · have h2 : ¬ (32 ≤ buffer_size) := by omega
    have h3 : (0 : Int) ≥ buffer_size := by omega
    have h4 : buffer_size ≤ 0 := by omega
    simp [h1, h2, h3, h4]
  · by_cases h0 : buffer_size = 0
    · subst h0
      simp [hotplug_payload_length]
    · have h4 : ¬ (buffer_size ≤ 0) := by omega
      by_cases h32 : 32 ≤ buffer_size
      · have h3 : ¬ ((31 : Int) ≥ buffer_size) := by omega
        simp [h1, h0, h32, h3, h4, hotplug_payload_length]
      · have h3 : (31 : Int) ≥ buffer_size := by omega
        simp [h1, h0, h32, h3, h4, hotplug_payload_length]

/-- C1 (as the code has it): for every device name D and driver name P,
ldd_match returns a result, and it returns true if and only if P is a
byte-wise prefix of D, the empty P included; so it returns true when P is
empty and false when P is longer than D. -/
theorem ldd_match_iff_prefix (v : Nat) (dev : ldd_device) (driver : device_driver)
    (D P r t : List Nat) (hD : 0 ∉ D) (hP : 0 ∉ P)
    (hdev : match_name v dev = some (D ++ 0 :: r))
    (hdrv : driver.name = P ++ 0 :: t) :
    (∃ b, ldd_match v dev driver = some b) ∧
    (ldd_match v dev driver = some true ↔ P <+: D) ∧
    (P = [] → ldd_match v dev driver = some true) ∧
    (D.length < P.length → ldd_match v dev driver = some false) := by
  have _ := hD
  have h := ldd_match_eq v dev driver D P r t hP hdev hdrv
  refine ⟨⟨_, h⟩, ?_, ?_, ?_⟩
  · rw [h]; simp
  · intro hnil; rw [h, hnil]; simp
  · intro hlt
    have hno : ¬ P <+: D := fun hp => absurd hp.length_le (Nat.not_le_of_lt hlt)
    rw [h]; simp [hno]

theorem ldd_match_iff_prefix_witness :
    (∃ b, ldd_match 0 (device_named "sculld0") (driver_named "sculld") = some b) ∧
    (ldd_match 0 (device_named "sculld0") (driver_named "sculld") = some true ↔
      ascii "sculld" <+: ascii "sculld0") ∧
    (ascii "sculld" = [] →
      ldd_match 0 (device_named "sculld0") (driver_named "sculld") = some true) ∧
    ((ascii "sculld0").length < (ascii "sculld").length →
      ldd_match 0 (device_named "sculld0") (driver_named "sculld") = some false) :=
  ldd_match_iff_prefix 0 (device_named "sculld0") (driver_named "sculld")
    (ascii "sculld0") (ascii "sculld") (List.replicate 12 0) []
    (by decide) (by decide) (by decide) (by decide)

/-- C1 fails as stated: the driver with the empty name matches the device
"sculld0", under both kernel variants, although the empty name is not a
non-empty prefix. -/
theorem ldd_match_empty_name_matches :
    ldd_match 0 (device_named "sculld0") (driver_named "") = some true ∧
    ldd_match (KERNEL_VERSION 2 6 28) (device_named "sculld0") (driver_named "") = some true ∧
    ¬ (ascii "" ≠ [] ∧ ascii "" <+: ascii "sculld0") := by
  decide

/-- C10: ldd_match compares the first strlen(P) bytes: it returns true exactly
when the first length(P) bytes of D followed by its NUL equal P; so the empty
driver name matches every device, a driver of the identical name matches, and
a driver name longer than the device name never matches. -/
theorem ldd_match_first_bytes (v : Nat) (dev : ldd_device) (driver : device_driver)
    (D P r t : List Nat) (hD : 0 ∉ D) (hP : 0 ∉ P)
    (hdev : match_name v dev = some (D ++ 0 :: r))
    (hdrv : driver.name = P ++ 0 :: t) :
    ldd_match v dev driver = some (decide ((D ++ [0]).take P.length = P)) ∧
    (P = [] → ldd_match v dev driver = some true) ∧
    (P = D → ldd_match v dev driver = some true) ∧
    (D.length < P.length → ldd_match v dev driver = some false) := by
  have _ := hD
  have h := ldd_match_eq v dev driver D P r t hP hdev hdrv
  have htake : ((D ++ [0]).take P.length = P) ↔ P <+: D := by
    rw [← prefix_terminated_iff P D [] hP, List.prefix_iff_eq_take]
    exact eq_comm
  refine ⟨?_, ?_, ?_, ?_⟩
  · rw [h]; simp [htake]
  · intro hnil; rw [h, hnil]; simp
  · intro heq; rw [h, heq]; simp
  · intro hlt
    have hno : ¬ P <+: D := fun hp => absurd hp.length_le (Nat.not_le_of_lt hlt)
    rw [h]; simp [hno]

theorem ldd_match_first_bytes_witness :
    ldd_match (KERNEL_VERSION 2 6 28) (device_named "other0") (driver_named "sculld") =
      some (decide ((ascii "other0" ++ [0]).take (ascii "sculld").length = ascii "sculld")) ∧
    (ascii "sculld" = [] →
      ldd_match (KERNEL_VERSION 2 6 28) (device_named "other0") (driver_named "sculld") = some true) ∧
    (ascii "sculld" = ascii "other0" →
      ldd_match (KERNEL_VERSION 2 6 28) (device_named "other0") (driver_named "sculld") = some true) ∧
    ((ascii "other0").length < (ascii "sculld").length →
      ldd_match (KERNEL_VERSION 2 6 28) (device_named "other0") (driver_named "sculld") = some false) :=
  ldd_match_first_bytes (KERNEL_VERSION 2 6 28) (device_named "other0") (driver_named "sculld")
    (ascii "other0") (ascii "sculld") [] []
    (by decide) (by decide) (by decide) (by decide)

/-! ## Notification: theorems -/

/-- C2: for every buffer_size, ldd_hotplug formats "LDDBUS_VERSION=" followed
by Version (31 bytes) and returns 0 exactly when the payload and its NUL fit
in buffer_size bytes, in which case the buffer holds the payload and the NUL;
otherwise it returns -ENOMEM.  It succeeds at buffer_size 32 and fails at 31. -/
theorem ldd_hotplug_capacity (dev : ldd_device) (envp : List (Option Nat)) (n : Int)
    (buffer : Nat) (mem : List Nat) (buffer_size : Int) :
    format_s (ascii "LDDBUS_VERSION=") (some Version) [] = hotplug_payload ∧
    hotplug_payload.length = 31 ∧
    (ldd_hotplug dev envp n buffer mem buffer_size).ret =
      (if (hotplug_payload.length : Int) + 1 ≤ buffer_size then 0 else -ENOMEM) ∧
    ((ldd_hotplug dev envp n buffer mem buffer_size).ret = 0 ↔
      (hotplug_payload.length : Int) + 1 ≤ buffer_size) ∧
    ((hotplug_payload.length : Int) + 1 ≤ buffer_size →
      (ldd_hotplug dev envp n buffer mem buffer_size).mem = store mem (hotplug_payload ++ [0])) ∧
    (ldd_hotplug dev envp n buffer mem 32).ret = 0 ∧
    (ldd_hotplug dev envp n buffer mem 31).ret = -ENOMEM := by
  have hlen : (hotplug_payload.length : Int) + 1 = 32 := by
    rw [hotplug_payload_length]; rfl
  refine ⟨hotplug_format, hotplug_payload_length, ?_, ?_, ?_, ?_, ?_⟩
  · rw [hlen]; exact ldd_hotplug_ret dev envp n buffer mem buffer_size
  · rw [hlen, ldd_hotplug_ret]
    by_cases h : 32 ≤ buffer_size
    · simp [h]
    · simp [h, ENOMEM]
  · rw [hlen]
    intro h
    have h4 : ¬ (buffer_size ≤ 0) := by omega
    have h5 : 31 ≤ buffer_size.toNat - 1 := by omega
    rw [(ldd_hotplug_envp_mem dev envp n buffer mem buffer_size).2, if_neg h4,
      List.take_of_length_le (by rw [hotplug_payload_length]; exact h5)]
  · rw [ldd_hotplug_ret]; simp
  · rw [ldd_hotplug_ret]; simp

/-- C3 fails as stated: with buffer_size 31 ldd_hotplug returns -ENOMEM, yet
envp[0] has been set to the buffer and the buffer holds the first 30 bytes of
the payload and a NUL. -/
theorem ldd_hotplug_failure_writes :
    (ldd_hotplug (device_named "sculld0") [none, none] 2 1000 (List.replicate 31 7) 31).ret
      = -ENOMEM ∧
    (ldd_hotplug (device_named "sculld0") [none, none] 2 1000 (List.replicate 31 7) 31).envp
      = [some 1000, none] ∧
    (ldd_hotplug (device_named "sculld0") [none, none] 2 1000 (List.replicate 31 7) 31).mem
      = ascii "LDDBUS_VERSION=$Revision: 1.9 " ++ [0] ∧
    (ldd_hotplug (device_named "sculld0") [none, none] 2 1000 (List.replicate 31 7) 31).envp
      ≠ [none, none] ∧
    (ldd_hotplug (device_named "sculld0") [none, none] 2 1000 (List.replicate 31 7) 31).mem
      ≠ List.replicate 31 7 := by
  decide

/-- C3 (as the code has it): when ldd_hotplug fails with -ENOMEM, envp[0] has
been set to the buffer and no other entry of envp is written (envp[1] is not
set to NULL); the buffer is unchanged when buffer_size is not positive and
otherwise holds the first buffer_size - 1 bytes of the payload and a NUL. -/
theorem ldd_hotplug_failure_state (dev : ldd_device) (envp : List (Option Nat)) (n : Int)
    (buffer : Nat) (mem : List Nat) (buffer_size : Int)
    (hfail : (ldd_hotplug dev envp n buffer mem buffer_size).ret = -ENOMEM) :
    (ldd_hotplug dev envp n buffer mem buffer_size).envp = envp.set 0 (some buffer) ∧
    (ldd_hotplug dev envp n buffer mem buffer_size).mem =
      (if buffer_size ≤ 0 then mem
        else store mem (hotplug_payload.take (buffer_size.toNat - 1) ++ [0])) := by
  have h32 : ¬ (32 ≤ buffer_size) := by
    intro h
    rw [ldd_hotplug_ret, if_pos h] at hfail
    simp [ENOMEM] at hfail
  have h := ldd_hotplug_envp_mem dev envp n buffer mem buffer_size
  rw [if_neg h32] at h
  exact h

theorem ldd_hotplug_failure_state_witness :
    (ldd_hotplug (device_named "sculld0") [none, some 5] 2 1000 (List.replicate 31 7) 31).envp
      = [none, some 5].set 0 (some 1000) ∧
    (ldd_hotplug (device_named "sculld0") [none, some 5] 2 1000 (List.replicate 31 7) 31).mem =
      (if (31 : Int) ≤ 0 then List.replicate 31 7
        else store (List.replicate 31 7) (hotplug_payload.take ((31 : Int).toNat - 1) ++ [0])) :=
  ldd_hotplug_failure_state (device_named "sculld0") [none, some 5] 2 1000
    (List.replicate 31 7) 31 (by decide)

/-- C5: for a driver whose version string is v, show_version writes exactly v,
a newline and the terminating NUL at the start of the buffer and returns
length(v) + 1; for the driver with version "1.0" the buffer reads "1.0\n" and
the result is 4. -/
theorem show_version_output (driver : ldd_driver) (buf v r : List Nat)
    (hv : 0 ∉ v) (hver : driver.version = some (v ++ 0 :: r)) :
    (show_version driver buf).1 = (v.length : Int) + 1 ∧
    (show_version driver buf).2 = store buf (v ++ ascii "\n" ++ [0]) ∧
    cstr (show_version driver buf).2 = v ++ ascii "\n" ∧
    (show_version sculld_driver buf).1 = 4 ∧
    cstr (show_version sculld_driver buf).2 = ascii "1.0\n" := by
  have hnl : (0 : Nat) ∉ v ++ ascii "\n" := by
    intro h
    rcases List.mem_append.mp h with h1 | h1
    · exact hv h1
    · exact absurd h1 (by decide)
  have hfmt : format_s [] driver.version (ascii "\n") = v ++ ascii "\n" := by
    rw [hver]; simp [format_s, cstr_terminated v r hv]
  have hbuf : (show_version driver buf).2 = store buf (v ++ ascii "\n" ++ [0]) := by
    simp only [show_version, to_ldd_driver, sprintf, hfmt]
  have hshape : ∀ (w : List Nat), store buf (w ++ [0]) = w ++ 0 :: buf.drop (w ++ [0]).length := by
    intro w; simp [store]
  refine ⟨?_, hbuf, ?_, ?_, ?_⟩
  · simp only [show_version, to_ldd_driver, sprintf, hfmt]
    rw [hshape, strlen_terminated _ _ hnl]
    have h1 : (ascii "\n").length = 1 := by decide
    rw [List.length_append, h1]
    push_cast
    rfl
  · rw [hbuf, hshape, cstr_terminated _ _ hnl]
  · simp only [show_version, to_ldd_driver, sprintf]
    have hf : format_s [] sculld_driver.version (ascii "\n") = ascii "1.0\n" := by decide
    rw [hf, hshape, strlen_terminated _ _ (by decide)]
    decide
  · simp only [show_version, to_ldd_driver, sprintf]
    have hf : format_s [] sculld_driver.version (ascii "\n") = ascii "1.0\n" := by decide
    rw [hf, hshape, cstr_terminated _ _ (by decide)]

theorem show_version_output_witness :
    (show_version sculld_driver (List.replicate 8 7)).1 = ((ascii "1.0").length : Int) + 1 ∧
    (show_version sculld_driver (List.replicate 8 7)).2
      = store (List.replicate 8 7) (ascii "1.0" ++ ascii "\n" ++ [0]) ∧
    cstr (show_version sculld_driver (List.replicate 8 7)).2 = ascii "1.0" ++ ascii "\n" ∧
    (show_version sculld_driver (List.replicate 8 7)).1 = 4 ∧
    cstr (show_version sculld_driver (List.replicate 8 7)).2 = ascii "1.0\n" :=
  show_version_output sculld_driver (List.replicate 8 7) (ascii "1.0") []
    (by decide) (by decide)

/-- C6: register_ldd_driver sets the driver's bus to ldd_bus_type and calls
driver_register first.  If that fails with e, the result is e, version_attr is
unchanged and driver_create_file is not called.  If it succeeds, the attribute
"version" (mode S_IRUGO without write bits, show_version, no store callback,
owned by the module) is handed to driver_create_file, whose result is
returned; so the result is 0 exactly when both calls return 0. -/
theorem register_ldd_driver_spec (k : kernel) (driver : ldd_driver) :
    (register_ldd_driver k driver).driver.driver = on_ldd_bus driver ∧
    (register_ldd_driver k driver).calls.head? = some (kcall.driver_register (on_ldd_bus driver)) ∧
    (k.driver_register (on_ldd_bus driver) ≠ 0 →
      (register_ldd_driver k driver).ret = k.driver_register (on_ldd_bus driver) ∧
      (register_ldd_driver k driver).driver.version_attr = driver.version_attr ∧
      (register_ldd_driver k driver).calls = [kcall.driver_register (on_ldd_bus driver)]) ∧
    (k.driver_register (on_ldd_bus driver) = 0 →
      (register_ldd_driver k driver).driver.version_attr = version_attribute driver ∧
      (register_ldd_driver k driver).calls =
        [kcall.driver_register (on_ldd_bus driver),
         kcall.driver_create_file (on_ldd_bus driver) (version_attribute driver)] ∧
      (register_ldd_driver k driver).ret =
        k.driver_create_file (on_ldd_bus driver) (version_attribute driver)) ∧
    ((register_ldd_driver k driver).ret = 0 ↔
      (k.driver_register (on_ldd_bus driver) = 0 ∧
       k.driver_create_file (on_ldd_bus driver) (version_attribute driver) = 0)) ∧
    S_IRUGO &&& 0o222 = 0 := by
  by_cases h : k.driver_register (on_ldd_bus driver) = 0
  · have h2 : k.driver_register
        { name := driver.driver.name, bus := some bus_type_ptr.ldd_bus_type } = 0 := h
    simp [register_ldd_driver, on_ldd_bus, version_attribute, h2]
    decide
  · have h2 : ¬ k.driver_register
        { name := driver.driver.name, bus := some bus_type_ptr.ldd_bus_type } = 0 := h
    simp [register_ldd_driver, on_ldd_bus, version_attribute, h2]
    decide

/-! ## Devices: theorems -/

/-- C7: register_ldd_device returns (a name being present where strncpy reads
it), the value returned is the result of device_register on the device, and
the device's bus is ldd_bus_type and its parent is ldd_bus, on success in
particular. -/
theorem register_ldd_device_result (k : kernel) (v : Nat) (ldddev : ldd_device)
    (hname : v < KERNEL_VERSION 2 6 28 → ldddev.name ≠ none) :
    ∃ r, register_ldd_device k v ldddev = some r ∧
      r.1 = k.device_register r.2.dev ∧
      r.2.dev.bus = some bus_type_ptr.ldd_bus_type ∧
      r.2.dev.parent = some device_ptr.ldd_bus ∧
      (r.1 = 0 → r.2.dev.bus = some bus_type_ptr.ldd_bus_type ∧
        r.2.dev.parent = some device_ptr.ldd_bus) := by
  unfold register_ldd_device
  by_cases hv : v < KERNEL_VERSION 2 6 28
  · cases hn : ldddev.name with
    | none => exact absurd hn (hname hv)
    | some nm => simp [hv]
  · simp [hv]

theorem register_ldd_device_result_witness :
    ∃ r, register_ldd_device kernel_ok 0 (fresh_device "sculld0") = some r ∧
      r.1 = kernel_ok.device_register r.2.dev ∧
      r.2.dev.bus = some bus_type_ptr.ldd_bus_type ∧
      r.2.dev.parent = some device_ptr.ldd_bus ∧
      (r.1 = 0 → r.2.dev.bus = some bus_type_ptr.ldd_bus_type ∧
        r.2.dev.parent = some device_ptr.ldd_bus) :=
  register_ldd_device_result kernel_ok 0 (fresh_device "sculld0") (by decide)

/-- C8 fails as stated: a device registered with its own release callback
comes out with ldd_dev_release, under both kernel variants. -/
theorem register_ldd_device_replaces_release :
    device_with_release.dev.release = some (release_fn.other 42) ∧
    (register_ldd_device kernel_ok 0 device_with_release).map (fun r => r.2.dev.release)
      = some (some release_fn.ldd_dev_release) ∧
    (register_ldd_device kernel_ok (KERNEL_VERSION 2 6 28) device_with_release).map
      (fun r => r.2.dev.release) = some (some release_fn.ldd_dev_release) := by
  decide

/-- C8 (as the code has it): register_ldd_device returns and always installs
the no-op ldd_dev_release as the device's release callback, whatever callback
the device had before. -/
theorem register_ldd_device_release (k : kernel) (v : Nat) (ldddev : ldd_device)
    (hname : v < KERNEL_VERSION 2 6 28 → ldddev.name ≠ none) :
    ∃ r, register_ldd_device k v ldddev = some r ∧
      r.2.dev.release = some release_fn.ldd_dev_release := by
  unfold register_ldd_device
  by_cases hv : v < KERNEL_VERSION 2 6 28
  · cases hn : ldddev.name with
    | none => exact absurd hn (hname hv)
    | some nm => simp [hv]
  · simp [hv]

theorem register_ldd_device_release_witness :
    ∃ r, register_ldd_device kernel_ok 0 device_with_release = some r ∧
      r.2.dev.release = some release_fn.ldd_dev_release :=
  register_ldd_device_release kernel_ok 0 device_with_release (by decide)

/-- C9 on the code for kernels from 2.6.28: registering the device that its
component named "sculld0" replaces ldddev->name by a copy of dev_name
("other0" here, "(null)" for a device without a kernel name), and the matcher
then rejects the driver "sculld" although "sculld" is a prefix of "sculld0". -/
theorem register_ldd_device_drops_supplied_name :
    ascii "sculld" <+: ascii "sculld0" ∧
    (register_ldd_device kernel_ok (KERNEL_VERSION 2 6 28) sculld0_over_other0).map
      (fun r => (r.1, r.2.name, ldd_match (KERNEL_VERSION 2 6 28) r.2 (driver_named "sculld")))
      = some (0, some (ascii "other0" ++ [0]), some false) ∧
    (register_ldd_device kernel_ok (KERNEL_VERSION 2 6 28) (fresh_device "sculld0")).map
      (fun r => (r.2.name, ldd_match (KERNEL_VERSION 2 6 28) r.2 (driver_named "sculld")))
      = some (some (ascii "(null)" ++ [0]), none) := by
  decide

end Lddbus
